import Mathlib

/-
  Verification of the DC3 pricing/quote engine.

  Shallow embedding of the pricing core of the repository:
  * `calculateComplexity`, the quote computation of `quoteController.generateQuote`,
    and the quote lifecycle operations `acceptQuote` / `declineQuote`
    (src/backend/controllers/pricingController.ts);
  * `PricingService.calculatePricing`, the bundle pricing calculator.

  JavaScript numbers are modelled as rationals (ℚ); `Math.round` is
  floor(x + 1/2) (JavaScript rounds halves toward +infinity) and `Math.ceil`
  is the integer ceiling.  Database lookups (`prisma....findFirst`) are
  modelled as `List.find?` over explicit stores.  Environment-configurable
  rate tables are embedded with their documented defaults.
-/

namespace DC3

/-- JavaScript `Math.round`: rounds to the nearest integer, halves toward +∞. -/
def jround (x : ℚ) : ℤ := ⌊x + 1/2⌋

/-- `Math.round(x * 100) / 100`: rounding to 2 decimal places. -/
def round2 (x : ℚ) : ℚ := (jround (x * 100) : ℚ) / 100

/-- Prisma enum `ProjectType`. -/
inductive ProjectType
  | creative
  | fullstack
  | web3
  | ai_automation
deriving DecidableEq, Repr

/-- Prisma enum `Urgency`. -/
inductive Urgency
  | standard
  | urgent
  | critical
deriving DecidableEq, Repr

/-- An entry of `scope.integrations`: only its `type` tag is inspected. -/
structure Integration where
  type : String
deriving DecidableEq, Repr

/-- The structured `projectScope` object.  Absent `features` / `integrations`
are the empty list (the source defaults them with `|| []`); `timeline` is
optional (the source defaults it with `|| 'standard'`). -/
structure Scope where
  features : List String
  integrations : List Integration
  timeline : Option String
deriving DecidableEq, Repr

/-- The integration types counted as complex by `calculateComplexity`. -/
def complexIntegrationTypes : List String :=
  ["payment", "blockchain", "ai", "custom_api"]

/-- Timeline pressure contribution of `calculateComplexity`
(`if (timeline === 'urgent') score += 1.5; if (timeline === 'critical') score += 2.5`). -/
def timelineScore (timeline : String) : ℚ :=
  (if timeline = "urgent" then 3/2 else 0) + (if timeline = "critical" then 5/2 else 0)

/-- Project-type base complexity table inside `calculateComplexity`. -/
def typeComplexity : ProjectType → ℚ
  | .creative => 1
  | .fullstack => 2
  | .web3 => 3
  | .ai_automation => 5/2

/-- Urgency factor of `calculateComplexity`
(`if (urgency === 'urgent') score += 0.5; if (urgency === 'critical') score += 1.0`). -/
def urgencyScore (urgency : Urgency) : ℚ :=
  (if urgency = .urgent then 1/2 else 0) + (if urgency = .critical then 1 else 0)

/-- `calculateComplexity` from pricingController.ts: feature score
`min(features.length * 0.5, 3.0)` plus integration score
`min(complexIntegrations.length * 0.8, 3.0)` plus timeline pressure plus
project-type base plus urgency factor, capped at 10. -/
def calculateComplexity (projectType : ProjectType) (scope : Scope) (urgency : Urgency) : ℚ :=
  min
    (min ((scope.features.length : ℚ) * (1/2)) 3 +
     min (((scope.integrations.filter
        (fun i => complexIntegrationTypes.contains i.type)).length : ℚ) * (4/5)) 3 +
     timelineScore ((scope.timeline).getD ("standard")) +
     typeComplexity projectType +
     urgencyScore urgency)
    10

/-- The discrete complexity level used by `generateQuote`. -/
inductive ComplexityLevel
  | low
  | medium
  | high
  | critical
deriving DecidableEq, Repr

/-- `complexityScore < 3 ? 'low' : < 6 ? 'medium' : < 8 ? 'high' : 'critical'`. -/
def complexityLevelOf (score : ℚ) : ComplexityLevel :=
  if score < 3 then .low
  else if score < 6 then .medium
  else if score < 8 then .high
  else .critical

/-- `COMPLEXITY_MULTIPLIERS` table. -/
def COMPLEXITY_MULTIPLIERS : ComplexityLevel → ℚ
  | .low => 1
  | .medium => 13/10
  | .high => 3/2
  | .critical => 9/5

/-- `URGENCY_MULTIPLIERS` table. -/
def URGENCY_MULTIPLIERS : Urgency → ℚ
  | .standard => 1
  | .urgent => 13/10
  | .critical => 3/2

/-- `BASE_RATES` table with its documented defaults (the env overrides unset). -/
def BASE_RATES : ProjectType → ℚ
  | .creative => 5000
  | .fullstack => 8000
  | .web3 => 12000
  | .ai_automation => 10000

/-- `baseTimeline` table inside `generateQuote`. -/
def baseTimeline : ProjectType → ℚ
  | .creative => 4
  | .fullstack => 8
  | .web3 => 12
  | .ai_automation => 10

/-- The project fields read by `generateQuote` (a `ProjectAssessment` row). -/
structure Project where
  id : String
  userId : String
  projectType : ProjectType
  complexityScore : Option ℚ
  projectScope : Scope
  urgency : Option Urgency
deriving DecidableEq, Repr

/-- The complexity score `generateQuote` works with: the stored
`project.complexityScore` if set, else `calculateComplexity(project.projectType,
scope, project.urgency || 'standard')`. -/
def quoteComplexityScore (p : Project) : ℚ :=
  (p.complexityScore).getD
    (calculateComplexity p.projectType p.projectScope ((p.urgency).getD .standard))

/-- The milestone payment structure of `generateQuote`. -/
structure PaymentStructure where
  deposit : ℤ
  milestone_1 : ℤ
  milestone_2 : ℤ
  final : ℤ
deriving DecidableEq, Repr

/-- `paymentStructure = { deposit: round(t*0.3), milestone_1: round(t*0.3),
milestone_2: round(t*0.2), final: round(t*0.2) }`. -/
def paymentStructureOf (total : ℚ) : PaymentStructure :=
  { deposit := jround (total * (3/10)),
    milestone_1 := jround (total * (3/10)),
    milestone_2 := jround (total * (2/10)),
    final := jround (total * (2/10)) }

/-- Sum of the four installments. -/
def paymentSum (ps : PaymentStructure) : ℤ :=
  ps.deposit + ps.milestone_1 + ps.milestone_2 + ps.final

/-- The numeric fields of the quote created by `generateQuote`. -/
structure QuoteNumbers where
  baseRate : ℚ
  complexityAdjustment : ℚ
  urgencyAdjustment : ℚ
  totalEstimate : ℚ
  notToExceed : ℤ
  estimatedTimelineWeeks : ℤ
  paymentStructure : PaymentStructure
deriving DecidableEq, Repr

/-- The pure numeric computation of `quoteController.generateQuote`
(pricingController.ts lines 284–327), with the default rate tables. -/
def computeQuote (p : Project) : QuoteNumbers :=
  let complexityScore := quoteComplexityScore p
  let baseRate := BASE_RATES p.projectType
  let complexityLevel := complexityLevelOf complexityScore
  let complexityMultiplier := COMPLEXITY_MULTIPLIERS complexityLevel
  let complexityAdjustment := baseRate * (complexityMultiplier - 1)
  let urgencyMultiplier := URGENCY_MULTIPLIERS ((p.urgency).getD .standard)
  let urgencyAdjustment := baseRate * (urgencyMultiplier - 1)
  let totalEstimate := baseRate + complexityAdjustment + urgencyAdjustment
  { baseRate := baseRate,
    complexityAdjustment := complexityAdjustment,
    urgencyAdjustment := urgencyAdjustment,
    totalEstimate := totalEstimate,
    notToExceed := ⌈totalEstimate * (23/20)⌉,
    estimatedTimelineWeeks := ⌈baseTimeline p.projectType * complexityMultiplier⌉,
    paymentStructure := paymentStructureOf totalEstimate }

/-- Quote lifecycle status (Prisma enum). -/
inductive QuoteStatus
  | pending
  | sent
  | accepted
  | declined
  | expired
deriving DecidableEq, Repr

/-- The quote `metadata` JSON object: the decline fields plus the remaining
keys, which the spread `...(quote.metadata || {})` preserves unchanged. -/
structure Metadata where
  declineReason : Option String
  declinedAt : Option String
  rest : List (String × String)
deriving DecidableEq, Repr

/-- A persisted `ProjectQuote` row (the fields the lifecycle operations read
or write). Timestamps are integers. -/
structure StoredQuote where
  id : String
  projectId : String
  userId : String
  numbers : QuoteNumbers
  validUntil : ℤ
  status : QuoteStatus
  termsAccepted : Bool
  acceptedAt : Option ℤ
  metadata : Metadata
deriving DecidableEq, Repr

/-- Error outcomes of the controller operations, keyed to the HTTP responses
the source sends. -/
inductive ApiError
  | NotFound
  | Forbidden
  | Expired
  | InvalidStatus
  | DuplicateActiveQuote
  | CategoryNotFound (key : String)
  | ScaleNotFound (key : String)
  | PricingNotFound (bundleId categoryKey scaleKey : String)
deriving DecidableEq, Repr

/-- `status: { in: ['pending', 'sent', 'accepted'] }` — the statuses counted
as an active quote by `generateQuote`. -/
def isActiveStatus (s : QuoteStatus) : Bool :=
  s == .pending || s == .sent || s == .accepted

/-- Number of active quotes a store holds for one project. -/
def activeQuoteCount (store : List StoredQuote) (projectId : String) : ℕ :=
  (store.filter (fun q => q.projectId == projectId && isActiveStatus q.status)).length

/-- `quoteController.generateQuote` at the store level: ownership check, then
the duplicate-active-quote check (`prisma.projectQuote.findFirst`), then
creation of a `pending` quote with the numbers of `computeQuote` and
`validUntil = now + 30 days`.  Returns the response and the store after. -/
def generateQuote (store : List StoredQuote) (project : Project) (userId newId : String)
    (now : ℤ) : Except ApiError StoredQuote × List StoredQuote :=
  if project.userId ≠ userId then (.error .Forbidden, store)
  else
    match store.find? (fun q => q.projectId == project.id && isActiveStatus q.status) with
    | some _ => (.error .DuplicateActiveQuote, store)
    | none =>
      let quote : StoredQuote :=
        { id := newId,
          projectId := project.id,
          userId := userId,
          numbers := computeQuote project,
          validUntil := now + 30 * 86400,
          status := .pending,
          termsAccepted := false,
          acceptedAt := none,
          metadata := { declineReason := none, declinedAt := none, rest := [] } }
      (.ok quote, quote :: store)

/-- `quoteController.acceptQuote`: lookup, ownership check, validity-window
check (`new Date() > quote.validUntil`), status check
(`status !== 'pending' && status !== 'sent'`), then the update to `accepted`.
Returns the response and the store after. -/
def acceptQuote (store : List StoredQuote) (quoteId userId : String) (now : ℤ) :
    Except ApiError StoredQuote × List StoredQuote :=
  match store.find? (fun q => q.id == quoteId) with
  | none => (.error .NotFound, store)
  | some quote =>
    if quote.userId ≠ userId then (.error .Forbidden, store)
    else if quote.validUntil < now then (.error .Expired, store)
    else if quote.status ≠ .pending ∧ quote.status ≠ .sent then (.error .InvalidStatus, store)
    else
      let updated := { quote with
        status := .accepted, termsAccepted := true, acceptedAt := some now }
      (.ok updated, store.map (fun q => if q.id == quoteId then updated else q))

/-- `quoteController.declineQuote`: lookup and ownership check only — no
status precondition — then the update to `declined`, spreading the old
metadata and overwriting `declineReason` and `declinedAt`.  Returns the
response and the store after. -/
def declineQuote (store : List StoredQuote) (quoteId userId : String)
    (reason : Option String) (now : String) :
    Except ApiError StoredQuote × List StoredQuote :=
  match store.find? (fun q => q.id == quoteId) with
  | none => (.error .NotFound, store)
  | some quote =>
    if quote.userId ≠ userId then (.error .Forbidden, store)
    else
      let updated := { quote with
        status := .declined,
        metadata := { quote.metadata with
          declineReason := reason, declinedAt := some now } }
      (.ok updated, store.map (fun q => if q.id == quoteId then updated else q))

/-- A `RevenueCategory` row. -/
structure RevenueCategory where
  id : String
  code : String
  name : String
deriving DecidableEq, Repr

/-- A `CompanyScale` row. -/
structure CompanyScale where
  id : String
  code : String
  name : String
  multiplier : ℚ
deriving DecidableEq, Repr

/-- A `BasePricing` row. -/
structure BasePricing where
  bundleId : String
  revenueCategoryId : String
  companyScaleId : String
  basePrice : ℚ
deriving DecidableEq, Repr

/-- A `ComplexityTier` row. -/
structure ComplexityTier where
  rating : ℤ
  adjustmentMultiplier : ℚ
deriving DecidableEq, Repr

/-- The lookup tables `PricingService.calculatePricing` queries. -/
structure PricingDB where
  revenueCategories : List RevenueCategory
  companyScales : List CompanyScale
  basePricings : List BasePricing
  complexityTiers : List ComplexityTier
deriving DecidableEq, Repr

/-- The additive breakdown of a `PricingCalculation`. -/
structure PricingBreakdown where
  base : ℚ
  scaleAdjustment : ℚ
  complexityAdjustment : ℚ
deriving DecidableEq, Repr

/-- The result record of `PricingService.calculatePricing`. -/
structure PricingCalculation where
  basePricing : ℚ
  scaleMultiplier : ℚ
  complexityAdjustment : ℚ
  finalPrice : ℚ
  breakdown : PricingBreakdown
deriving DecidableEq, Repr

/-- Prisma `mode: 'insensitive'` string equality: compare the two strings
lowercased character by character. -/
def insensitiveEq (a b : String) : Bool :=
  a.data.map Char.toLower == b.data.map Char.toLower

/-- The revenue-category `findFirst` predicate:
`OR: [{ code: key }, { name: { equals: key, mode: 'insensitive' } }]` —
the `code` comparison is exact (case-sensitive), only the `name` comparison
is case-insensitive. -/
def categoryMatches (key : String) (c : RevenueCategory) : Bool :=
  c.code == key || insensitiveEq c.name key

/-- The company-scale `findFirst` predicate — same shape as the category one. -/
def scaleMatches (key : String) (s : CompanyScale) : Bool :=
  s.code == key || insensitiveEq s.name key

/-- The complexity-tier multiplier: exact integer `rating` lookup, a miss
silently defaulting to 1.0. -/
def tierMultiplier (tiers : List ComplexityTier) (rating : ℤ) : ℚ :=
  ((tiers.find? (fun t => t.rating == rating)).map
    (fun t => t.adjustmentMultiplier)).getD 1

/-- `PricingService.calculatePricing` (RC + Scale + Complexity):
category lookup, scale lookup, base-price lookup by exact triple, lenient
tier lookup, then `scaleAdjustment = base*(scaleMultiplier-1)`,
`complexityAdjustmentValue = (base+scaleAdjustment)*(complexityMultiplier-1)`,
`finalPrice = base + scaleAdjustment + complexityAdjustmentValue` rounded to
2 decimals (as are the breakdown adjustments). -/
def calculatePricing (db : PricingDB) (bundleId revenueCategory companyRevenueScale : String)
    (complexityRating : ℤ) : Except ApiError PricingCalculation :=
  match (db.revenueCategories).find? (categoryMatches revenueCategory) with
  | none => .error (.CategoryNotFound revenueCategory)
  | some revCategory =>
    match (db.companyScales).find? (scaleMatches companyRevenueScale) with
    | none => .error (.ScaleNotFound companyRevenueScale)
    | some scale =>
      match (db.basePricings).find? (fun bp =>
          bp.bundleId == bundleId && bp.revenueCategoryId == revCategory.id &&
          bp.companyScaleId == scale.id) with
      | none => .error (.PricingNotFound bundleId revenueCategory companyRevenueScale)
      | some basePricing =>
        let complexityMultiplier := tierMultiplier db.complexityTiers complexityRating
        let base := basePricing.basePrice
        let scaleMultiplier := scale.multiplier
        let scaleAdjustment := base * (scaleMultiplier - 1)
        let complexityAdjustmentValue := (base + scaleAdjustment) * (complexityMultiplier - 1)
        let finalPrice := base + scaleAdjustment + complexityAdjustmentValue
        .ok { basePricing := base,
              scaleMultiplier := scaleMultiplier,
              complexityAdjustment := complexityMultiplier,
              finalPrice := round2 finalPrice,
              breakdown := { base := base,
                             scaleAdjustment := round2 scaleAdjustment,
                             complexityAdjustment := round2 complexityAdjustmentValue } }

/-! Concrete inputs used by the example computations and the witnesses. -/

/-- The end-to-end example project of the spec: `fullstack`, no stored
complexity, 4 features, 2 `payment` integrations, no scope timeline,
urgency `urgent`. -/
def exampleProject : Project :=
  { id := "p1", userId := "u1", projectType := .fullstack,
    complexityScore := none,
    projectScope := { features := ["login", "dashboard", "reports", "admin"],
                      integrations := [{ type := "payment" }, { type := "payment" }],
                      timeline := none },
    urgency := some .urgent }

/-- An expired quote (validity deadline 100) in `accepted` status, owned by
user `u1`. -/
def expiredQuote : StoredQuote :=
  { id := "q1", projectId := "p1", userId := "u1",
    numbers := computeQuote exampleProject,
    validUntil := 100, status := .accepted, termsAccepted := false, acceptedAt := none,
    metadata := { declineReason := none, declinedAt := none, rest := [] } }

/-- An already-declined quote with earlier decline metadata and one extra
metadata key. -/
def declinedQuote : StoredQuote :=
  { id := "q3", projectId := "p1", userId := "u1",
    numbers := computeQuote exampleProject,
    validUntil := 100, status := .declined, termsAccepted := false, acceptedAt := none,
    metadata := { declineReason := some ("too expensive"),
                  declinedAt := some ("2026-01-01"),
                  rest := [("note", "keep")] } }

/-- The quote `generateQuote` creates for `exampleProject` on an empty store
at time 0 with id `q9`. -/
def generatedExample : StoredQuote :=
  { id := "q9", projectId := "p1", userId := "u1",
    numbers := computeQuote exampleProject,
    validUntil := 0 + 30 * 86400, status := .pending, termsAccepted := false,
    acceptedAt := none,
    metadata := { declineReason := none, declinedAt := none, rest := [] } }

/-- Lookup tables realising the spec's bundle example: base 5000, scale
multiplier 1.5, complexity-tier multiplier 1.35 at rating 5. -/
def db3 : PricingDB :=
  { revenueCategories := [{ id := "rc1", code := "ECOM", name := "Ecommerce" }],
    companyScales := [{ id := "cs1", code := "MID", name := "Mid Market", multiplier := 3/2 }],
    basePricings := [{ bundleId := "bundle1", revenueCategoryId := "rc1",
                       companyScaleId := "cs1", basePrice := 5000 }],
    complexityTiers := [{ rating := 5, adjustmentMultiplier := 27/20 }] }

/-- Lookup tables with a category whose code is `SAAS`. -/
def db7 : PricingDB :=
  { revenueCategories := [{ id := "rc1", code := "SAAS", name := "Software as a Service" }],
    companyScales := [{ id := "cs1", code := "ENT", name := "Enterprise", multiplier := 2 }],
    basePricings := [{ bundleId := "b1", revenueCategoryId := "rc1",
                       companyScaleId := "cs1", basePrice := 1000 }],
    complexityTiers := [] }

/-- Lookup tables like `db3` but with no complexity tiers at all. -/
def db8 : PricingDB :=
  { revenueCategories := [{ id := "rc1", code := "ECOM", name := "Ecommerce" }],
    companyScales := [{ id := "cs1", code := "MID", name := "Mid Market", multiplier := 3/2 }],
    basePricings := [{ bundleId := "bundle1", revenueCategoryId := "rc1",
                       companyScaleId := "cs1", basePrice := 5000 }],
    complexityTiers := [] }

/-- Integer proof devices: base rates in thousands and multipliers in tenths. -/
def rateThousands : ProjectType → ℤ
  | .creative => 5
  | .fullstack => 8
  | .web3 => 12
  | .ai_automation => 10

/-- Complexity multipliers in tenths. -/
def cmTenths : ComplexityLevel → ℤ
  | .low => 10
  | .medium => 13
  | .high => 15
  | .critical => 18

/-- Urgency multipliers in tenths. -/
def umTenths : Urgency → ℤ
  | .standard => 10
  | .urgent => 13
  | .critical => 15

/-! Helper lemmas. -/

theorem timelineScore_nonneg (t : String) : 0 ≤ timelineScore t := by
  unfold timelineScore
  split <;> split <;> norm_num

theorem urgencyScore_nonneg (u : Urgency) : 0 ≤ urgencyScore u := by
  unfold urgencyScore
  split <;> split <;> norm_num

theorem typeComplexity_le_three (pt : ProjectType) : typeComplexity pt ≤ 3 := by
  cases pt <;> norm_num [typeComplexity]

theorem typeComplexity_pos (pt : ProjectType) : 0 < typeComplexity pt := by
  cases pt <;> norm_num [typeComplexity]

/-- The complexity score is at least the project-type base contribution:
every other contribution is non-negative and the base is below the 10 cap. -/
theorem calculateComplexity_lower (pt : ProjectType) (scope : Scope) (u : Urgency) :
    typeComplexity pt ≤ calculateComplexity pt scope u := by
  unfold calculateComplexity
  have hf : (0:ℚ) ≤ min ((scope.features.length : ℚ) * (1/2)) 3 :=
    le_min (by positivity) (by norm_num)
  have hi : (0:ℚ) ≤ min (((scope.integrations.filter
      (fun i => complexIntegrationTypes.contains i.type)).length : ℚ) * (4/5)) 3 :=
    le_min (by positivity) (by norm_num)
  have ht := timelineScore_nonneg ((scope.timeline).getD ("standard"))
  have hu := urgencyScore_nonneg u
  have h3 := typeComplexity_le_three pt
  refine le_min (by linarith) (by linarith)

/-- The global 10.0 cap. -/
theorem calculateComplexity_upper (pt : ProjectType) (scope : Scope) (u : Urgency) :
    calculateComplexity pt scope u ≤ 10 := min_le_right _ _

theorem one_le_complexity_multiplier (l : ComplexityLevel) :
    1 ≤ COMPLEXITY_MULTIPLIERS l := by
  cases l <;> norm_num [COMPLEXITY_MULTIPLIERS]

theorem one_le_urgency_multiplier (u : Urgency) : 1 ≤ URGENCY_MULTIPLIERS u := by
  cases u <;> norm_num [URGENCY_MULTIPLIERS]

theorem BASE_RATES_pos (pt : ProjectType) : 0 < BASE_RATES pt := by
  cases pt <;> norm_num [BASE_RATES]

/-- The total estimate factors as baseRate times (cm + um − 1). -/
theorem totalEstimate_eq (p : Project) :
    (computeQuote p).totalEstimate =
      BASE_RATES p.projectType *
        (COMPLEXITY_MULTIPLIERS (complexityLevelOf (quoteComplexityScore p)) +
         URGENCY_MULTIPLIERS ((p.urgency).getD .standard) - 1) := by
  simp only [computeQuote]
  ring

theorem totalEstimate_nonneg (p : Project) : 0 ≤ (computeQuote p).totalEstimate := by
  rw [totalEstimate_eq]
  have h1 := BASE_RATES_pos p.projectType
  have h2 := one_le_complexity_multiplier (complexityLevelOf (quoteComplexityScore p))
  have h3 := one_le_urgency_multiplier ((p.urgency).getD .standard)
  nlinarith

theorem notToExceed_def (p : Project) :
    (computeQuote p).notToExceed = ⌈(computeQuote p).totalEstimate * (23/20)⌉ := rfl

/-- A successfully generated quote carries exactly the numbers of
`computeQuote` on its project. -/
theorem generateQuote_ok_numbers (store : List StoredQuote) (project : Project)
    (userId newId : String) (now : ℤ) (q : StoredQuote) (store2 : List StoredQuote)
    (hgen : generateQuote store project userId newId now = (.ok q, store2)) :
    q.numbers = computeQuote project := by
  unfold generateQuote at hgen
  by_cases hown : project.userId ≠ userId
  · rw [if_pos hown] at hgen
    simp at hgen
  · rw [if_neg hown] at hgen
    rcases hfind : store.find?
        (fun r => r.projectId == project.id && isActiveStatus r.status) with _ | r
    · rw [hfind] at hgen
      simp only [Prod.mk.injEq, Except.ok.injEq] at hgen
      rw [← hgen.1]
    · rw [hfind] at hgen
      simp at hgen

/-- Every total estimate `generateQuote` produces is an integer multiple of
100 (with the default rate tables). -/
theorem exists_int_totalEstimate (p : Project) :
    ∃ k : ℤ, (computeQuote p).totalEstimate = 100 * (k : ℚ) := by
  refine ⟨rateThousands p.projectType *
    (cmTenths (complexityLevelOf (quoteComplexityScore p)) +
     umTenths ((p.urgency).getD .standard) - 10), ?_⟩
  rw [totalEstimate_eq]
  cases p.projectType <;>
    cases complexityLevelOf (quoteComplexityScore p) <;>
    cases (p.urgency).getD .standard <;>
    norm_num [BASE_RATES, COMPLEXITY_MULTIPLIERS, URGENCY_MULTIPLIERS,
      rateThousands, cmTenths, umTenths]

theorem jround_intCast (m : ℤ) : jround ((m : ℚ)) = m := by
  unfold jround
  rw [Int.floor_eq_iff]
  constructor <;> norm_num

/-- The complexity score of the example project. -/
theorem exampleProject_score : quoteComplexityScore exampleProject = 61/10 := by
  norm_num +decide [quoteComplexityScore, exampleProject, calculateComplexity,
    complexIntegrationTypes, timelineScore, typeComplexity, urgencyScore,
    List.filter, min_def]

/-- The full quote of the example project. -/
theorem computeQuote_example :
    computeQuote exampleProject =
      { baseRate := 8000,
        complexityAdjustment := 4000,
        urgencyAdjustment := 2400,
        totalEstimate := 14400,
        notToExceed := 16560,
        estimatedTimelineWeeks := 12,
        paymentStructure :=
          { deposit := 4320, milestone_1 := 4320, milestone_2 := 2880, final := 2880 } } := by
  have hpt : exampleProject.projectType = .fullstack := rfl
  have hu : (exampleProject.urgency).getD .standard = .urgent := rfl
  simp only [computeQuote, exampleProject_score, hpt, hu]
  norm_num [complexityLevelOf, COMPLEXITY_MULTIPLIERS, URGENCY_MULTIPLIERS, BASE_RATES,
    baseTimeline, paymentStructureOf, jround, Int.floor_eq_iff, QuoteNumbers.mk.injEq,
    PaymentStructure.mk.injEq]

/-! The claims. -/

/-- Claim C1: every quote produced by `generateQuote` has
`notToExceed = ceil(totalEstimate * 1.15)`, and consequently
`totalEstimate ≤ notToExceed`. -/
theorem spec_c1 (store : List StoredQuote) (project : Project)
    (userId newId : String) (now : ℤ) (q : StoredQuote) (store2 : List StoredQuote)
    (hgen : generateQuote store project userId newId now = (.ok q, store2)) :
    q.numbers.notToExceed = ⌈q.numbers.totalEstimate * (23/20)⌉ ∧
    q.numbers.totalEstimate ≤ ((q.numbers.notToExceed : ℤ) : ℚ) := by
  rw [generateQuote_ok_numbers store project userId newId now q store2 hgen]
  refine ⟨rfl, ?_⟩
  rw [notToExceed_def]
  have h0 := totalEstimate_nonneg project
  calc (computeQuote project).totalEstimate
      ≤ (computeQuote project).totalEstimate * (23/20) := by nlinarith
    _ ≤ (((⌈(computeQuote project).totalEstimate * (23/20)⌉ : ℤ) : ℚ)) := Int.le_ceil _

/-- Witness for C1: the quote generated for the example project. -/
theorem spec_c1_witness :
    generatedExample.numbers.notToExceed =
      ⌈generatedExample.numbers.totalEstimate * (23/20)⌉ ∧
    generatedExample.numbers.totalEstimate ≤ ((generatedExample.numbers.notToExceed : ℤ) : ℚ) :=
  spec_c1 [] exampleProject ("u1") ("q9") 0 generatedExample [generatedExample] rfl

/-- Claim C2: the end-to-end fullstack example — complexity score 6.1, level
high, multiplier 1.5, base rate 8000, complexity adjustment 4000, urgency
multiplier 1.3, urgency adjustment 2400, total 14400, not-to-exceed 16560. -/
theorem spec_c2 :
    quoteComplexityScore exampleProject = 61/10 ∧
    complexityLevelOf (61/10) = .high ∧
    COMPLEXITY_MULTIPLIERS .high = 3/2 ∧
    (computeQuote exampleProject).baseRate = 8000 ∧
    (computeQuote exampleProject).complexityAdjustment = 4000 ∧
    URGENCY_MULTIPLIERS .urgent = 13/10 ∧
    (computeQuote exampleProject).urgencyAdjustment = 2400 ∧
    (computeQuote exampleProject).totalEstimate = 14400 ∧
    (computeQuote exampleProject).notToExceed = 16560 := by
  rw [computeQuote_example]
  exact ⟨exampleProject_score, by norm_num [complexityLevelOf], rfl, rfl, rfl, rfl, rfl,
    rfl, rfl⟩

/-- Claim C3: bundle pricing compounds complexity on the scale-adjusted
amount: whenever the three lookups succeed, `calculatePricing` returns
`scaleAdjustment = base*(scaleMultiplier−1)`,
`complexityAdjustmentValue = (base+scaleAdjustment)*(tierMultiplier−1)` and
`finalPrice = base + scaleAdjustment + complexityAdjustmentValue` rounded to
2 decimals. -/
theorem spec_c3 (db : PricingDB) (bundleId revenueCategory companyRevenueScale : String)
    (complexityRating : ℤ) (c : RevenueCategory) (s : CompanyScale) (bp : BasePricing)
    (hc : (db.revenueCategories).find? (categoryMatches revenueCategory) = some c)
    (hs : (db.companyScales).find? (scaleMatches companyRevenueScale) = some s)
    (hb : (db.basePricings).find? (fun r => r.bundleId == bundleId &&
        r.revenueCategoryId == c.id && r.companyScaleId == s.id) = some bp) :
    calculatePricing db bundleId revenueCategory companyRevenueScale complexityRating =
      .ok { basePricing := bp.basePrice,
            scaleMultiplier := s.multiplier,
            complexityAdjustment := tierMultiplier db.complexityTiers complexityRating,
            finalPrice := round2 (bp.basePrice + bp.basePrice * (s.multiplier - 1) +
              (bp.basePrice + bp.basePrice * (s.multiplier - 1)) *
                (tierMultiplier db.complexityTiers complexityRating - 1)),
            breakdown :=
              { base := bp.basePrice,
                scaleAdjustment := round2 (bp.basePrice * (s.multiplier - 1)),
                complexityAdjustment := round2 ((bp.basePrice + bp.basePrice * (s.multiplier - 1)) *
                  (tierMultiplier db.complexityTiers complexityRating - 1)) } } := by
  unfold calculatePricing
  rw [hc]
  dsimp only
  rw [hs]
  dsimp only
  rw [hb]

/-- Witness for C3: base 5000, scale 1.5, complexity 1.35 gives scale
adjustment 2500, complexity adjustment 2625 and final price 10125. -/
theorem spec_c3_witness :
    calculatePricing db3 ("bundle1") ("ECOM") ("MID") 5 =
      .ok { basePricing := 5000,
            scaleMultiplier := 3/2,
            complexityAdjustment := 27/20,
            finalPrice := 10125,
            breakdown := { base := 5000, scaleAdjustment := 2500,
                           complexityAdjustment := 2625 } } := by
  rw [spec_c3 db3 ("bundle1") ("ECOM") ("MID") 5
    { id := "rc1", code := "ECOM", name := "Ecommerce" }
    { id := "cs1", code := "MID", name := "Mid Market", multiplier := 3/2 }
    { bundleId := "bundle1", revenueCategoryId := "rc1", companyScaleId := "cs1",
      basePrice := 5000 }
    rfl rfl rfl]
  norm_num [tierMultiplier, db3, round2, jround, Int.floor_eq_iff,
    PricingCalculation.mk.injEq, PricingBreakdown.mk.injEq]

/-- Counterexample to C4 as stated: for the total estimate 2.5 the four
installments are 1, 1, 1, 1 and their sum 4 misses the total by 1.5 > 1, so
the property does not hold for every total estimate. -/
theorem spec_c4_counterexample :
    ¬ (|((paymentSum (paymentStructureOf (5/2)) : ℤ) : ℚ) - 5/2| ≤ 1) := by
  norm_num [paymentSum, paymentStructureOf, jround, Int.floor_eq_iff, abs_le]

/-- Claim C4 (amended): for every quote `generateQuote` actually produces
(default rate tables), the four installments sum to within 1 currency unit
of the total estimate — in fact the totals are multiples of 100, so the sum
is exact. -/
theorem spec_c4_amended (store : List StoredQuote) (project : Project)
    (userId newId : String) (now : ℤ) (q : StoredQuote) (store2 : List StoredQuote)
    (hgen : generateQuote store project userId newId now = (.ok q, store2)) :
    |((paymentSum q.numbers.paymentStructure : ℤ) : ℚ) - q.numbers.totalEstimate| ≤ 1 := by
  rw [generateQuote_ok_numbers store project userId newId now q store2 hgen]
  obtain ⟨k, hk⟩ := exists_int_totalEstimate project
  have hps : (computeQuote project).paymentStructure =
      paymentStructureOf ((computeQuote project).totalEstimate) := rfl
  rw [hps, hk]
  have e1 : (100 * (k:ℚ)) * (3/10) = ((30*k : ℤ) : ℚ) := by push_cast; ring
  have e2 : (100 * (k:ℚ)) * (2/10) = ((20*k : ℤ) : ℚ) := by push_cast; ring
  simp only [paymentStructureOf, paymentSum, e1, e2, jround_intCast]
  push_cast
  ring_nf
  norm_num

/-- Witness for C4 (amended): the example project's generated quote. -/
theorem spec_c4_witness :
    |((paymentSum generatedExample.numbers.paymentStructure : ℤ) : ℚ) -
      generatedExample.numbers.totalEstimate| ≤ 1 :=
  spec_c4_amended [] exampleProject ("u1") ("q9") 0 generatedExample [generatedExample] rfl

/-- Claim C5: accepting a quote whose validity deadline has passed fails
with `Expired`, whatever its status, and leaves the store unchanged. -/
theorem spec_c5 (store : List StoredQuote) (quoteId userId : String) (now : ℤ)
    (q : StoredQuote) (hfind : store.find? (fun r => r.id == quoteId) = some q)
    (howner : q.userId = userId) (hexp : q.validUntil < now) :
    acceptQuote store quoteId userId now = (.error .Expired, store) := by
  unfold acceptQuote
  rw [hfind]
  simp [howner, hexp]

/-- Witness for C5: an expired quote in `accepted` status. -/
theorem spec_c5_witness :
    acceptQuote [expiredQuote] ("q1") ("u1") 200 = (.error .Expired, [expiredQuote]) :=
  spec_c5 [expiredQuote] ("q1") ("u1") 200 expiredQuote rfl rfl (by norm_num [expiredQuote])

/-- Claim C6: if an active quote (status pending/sent/accepted) exists for
the project, `generateQuote` fails with the duplicate-active-quote error and
the store is unchanged; and a sequential `generateQuote` call preserves the
at-most-one-active-quote-per-project invariant. -/
theorem spec_c6 (store : List StoredQuote) (project : Project) (userId newId : String)
    (now : ℤ) (howner : project.userId = userId) :
    (∀ q, store.find? (fun r => r.projectId == project.id && isActiveStatus r.status) = some q →
        generateQuote store project userId newId now = (.error .DuplicateActiveQuote, store)) ∧
    (∀ pid, activeQuoteCount store pid ≤ 1 →
        activeQuoteCount (generateQuote store project userId newId now).2 pid ≤ 1) := by
  constructor
  · intro q hq
    unfold generateQuote
    rw [hq]
    simp [howner]
  · intro pid hcount
    unfold generateQuote
    rw [if_neg (by simp [howner])]
    rcases hfind : store.find? (fun r => r.projectId == project.id && isActiveStatus r.status)
      with _ | q
    · rw [hfind]
      unfold activeQuoteCount
      rw [List.filter_cons]
      split
      · rename_i htrue
        have hpid : project.id = pid := by
          simpa [isActiveStatus] using htrue
        have hempty : store.filter
            (fun r => r.projectId == pid && isActiveStatus r.status) = [] := by
          rw [List.filter_eq_nil_iff]
          intro a ha
          rw [← hpid]
          exact List.find?_eq_none.mp hfind a ha
        simp [hempty]
      · simpa [activeQuoteCount] using hcount
    · rw [hfind]
      simpa [activeQuoteCount] using hcount

/-- Witness for C6: a store already holding an active (`accepted`) quote for
the project makes `generateQuote` fail without touching the store. -/
theorem spec_c6_witness :
    generateQuote [expiredQuote] exampleProject ("u1") ("q2") 0 =
      (.error .DuplicateActiveQuote, [expiredQuote]) :=
  (spec_c6 [expiredQuote] exampleProject ("u1") ("q2") 0 rfl).1 expiredQuote rfl

/-- Counterexample to C7 as stated: the category code lookup is
case-sensitive, so the key `saas`, differing from the stored code `SAAS`
only by letter case (and not matching the display name), does not resolve
and raises `CategoryNotFound`. -/
theorem spec_c7_counterexample :
    calculatePricing db7 ("b1") ("saas") ("ENT") 5 =
      .error (.CategoryNotFound ("saas")) := by
  have h : (db7.revenueCategories).find? (categoryMatches ("saas")) = none := by decide
  unfold calculatePricing
  rw [h]

/-- Claim C7 (amended): category and scale are matched by exact
(case-sensitive) code or case-insensitive display name; a key matching no
entry by either path raises `CategoryNotFound` / `ScaleNotFound`. -/
theorem spec_c7_amended (db : PricingDB) (bundleId rcKey csKey : String) (rating : ℤ) :
    ((db.revenueCategories).find? (categoryMatches rcKey) = none →
      calculatePricing db bundleId rcKey csKey rating = .error (.CategoryNotFound rcKey)) ∧
    (∀ c, (db.revenueCategories).find? (categoryMatches rcKey) = some c →
      (db.companyScales).find? (scaleMatches csKey) = none →
      calculatePricing db bundleId rcKey csKey rating = .error (.ScaleNotFound csKey)) := by
  constructor
  · intro h
    unfold calculatePricing
    rw [h]
  · intro c hc hs
    unfold calculatePricing
    rw [hc]
    dsimp only
    rw [hs]

/-- Witness for C7 (amended): an empty table raises `CategoryNotFound`. -/
theorem spec_c7_witness :
    calculatePricing { revenueCategories := [], companyScales := [],
                       basePricings := [], complexityTiers := [] }
      ("b") ("x") ("y") 5 = .error (.CategoryNotFound ("x")) :=
  (spec_c7_amended { revenueCategories := [], companyScales := [],
                     basePricings := [], complexityTiers := [] } ("b") ("x") ("y") 5).1 rfl

/-- Claim C8: a missing base-price row raises `PricingNotFound`, while a
missing complexity tier does not fail — the multiplier silently defaults to
1.0 and the computation returns `finalPrice = base * scaleMultiplier` with a
zero complexity adjustment. -/
theorem spec_c8 (db : PricingDB) (bundleId rcKey csKey : String) (rating : ℤ)
    (c : RevenueCategory) (s : CompanyScale)
    (hc : (db.revenueCategories).find? (categoryMatches rcKey) = some c)
    (hs : (db.companyScales).find? (scaleMatches csKey) = some s) :
    ((db.basePricings).find? (fun r => r.bundleId == bundleId &&
        r.revenueCategoryId == c.id && r.companyScaleId == s.id) = none →
      calculatePricing db bundleId rcKey csKey rating =
        .error (.PricingNotFound bundleId rcKey csKey)) ∧
    (∀ bp, (db.basePricings).find? (fun r => r.bundleId == bundleId &&
        r.revenueCategoryId == c.id && r.companyScaleId == s.id) = some bp →
      (db.complexityTiers).find? (fun t => t.rating == rating) = none →
      calculatePricing db bundleId rcKey csKey rating =
        .ok { basePricing := bp.basePrice,
              scaleMultiplier := s.multiplier,
              complexityAdjustment := 1,
              finalPrice := round2 (bp.basePrice * s.multiplier),
              breakdown :=
                { base := bp.basePrice,
                  scaleAdjustment := round2 (bp.basePrice * (s.multiplier - 1)),
                  complexityAdjustment := 0 } }) := by
  constructor
  · intro hb
    unfold calculatePricing
    rw [hc]
    dsimp only
    rw [hs]
    dsimp only
    rw [hb]
  · intro bp hb ht
    unfold calculatePricing
    rw [hc]
    dsimp only
    rw [hs]
    dsimp only
    rw [hb]
    dsimp only
    have hm : tierMultiplier db.complexityTiers rating = 1 := by
      rw [tierMultiplier, ht]
      rfl
    rw [hm]
    have h1 : bp.basePrice + bp.basePrice * (s.multiplier - 1) +
        (bp.basePrice + bp.basePrice * (s.multiplier - 1)) * ((1:ℚ) - 1) =
        bp.basePrice * s.multiplier := by ring
    have h2 : (bp.basePrice + bp.basePrice * (s.multiplier - 1)) * ((1:ℚ) - 1) = 0 := by ring
    rw [h1, h2]
    norm_num [round2, jround]

/-- Witness for C8: with no tiers the rating-7 lookup misses, yet the result
is `ok` with multiplier 1 (final price 7500 = 5000 × 1.5). -/
theorem spec_c8_witness :
    calculatePricing db8 ("bundle1") ("ECOM") ("MID") 7 =
      .ok { basePricing := 5000,
            scaleMultiplier := 3/2,
            complexityAdjustment := 1,
            finalPrice := 7500,
            breakdown := { base := 5000, scaleAdjustment := 2500,
                           complexityAdjustment := 0 } } := by
  rw [(spec_c8 db8 ("bundle1") ("ECOM") ("MID") 7
      { id := "rc1", code := "ECOM", name := "Ecommerce" }
      { id := "cs1", code := "MID", name := "Mid Market", multiplier := 3/2 }
      rfl rfl).2
    { bundleId := "bundle1", revenueCategoryId := "rc1", companyScaleId := "cs1",
      basePrice := 5000 }
    rfl rfl]
  norm_num [round2, jround, Int.floor_eq_iff,
    PricingCalculation.mk.injEq, PricingBreakdown.mk.injEq]

/-- Claim C9: for every project type, scope and urgency, the complexity
score lies in [typeComplexity, 10], and the computation is deterministic
(equal inputs give equal outputs). -/
theorem spec_c9 (pt : ProjectType) (scope : Scope) (u : Urgency) :
    typeComplexity pt ≤ calculateComplexity pt scope u ∧
    calculateComplexity pt scope u ≤ 10 ∧
    (∀ scope2 u2, scope2 = scope → u2 = u →
      calculateComplexity pt scope2 u2 = calculateComplexity pt scope u) := by
  refine ⟨calculateComplexity_lower pt scope u, calculateComplexity_upper pt scope u, ?_⟩
  intro scope2 u2 h1 h2
  rw [h1, h2]

/-- Witness for C9: the bounds and determinism at the example inputs. -/
theorem spec_c9_witness :
    typeComplexity .fullstack ≤
      calculateComplexity .fullstack exampleProject.projectScope .urgent ∧
    calculateComplexity .fullstack exampleProject.projectScope .urgent ≤ 10 ∧
    calculateComplexity .fullstack exampleProject.projectScope .urgent =
      calculateComplexity .fullstack exampleProject.projectScope .urgent := by
  obtain ⟨h1, h2, h3⟩ := spec_c9 .fullstack exampleProject.projectScope .urgent
  exact ⟨h1, h2, h3 exampleProject.projectScope .urgent rfl rfl⟩

/-- Claim C10: `declineQuote` checks ownership but no status: for any owned
quote, whatever its status, it succeeds, sets status `declined`, overwrites
`declineReason` and `declinedAt`, and preserves the other metadata keys. -/
theorem spec_c10 (store : List StoredQuote) (quoteId userId : String)
    (reason : Option String) (now : String) (q : StoredQuote)
    (hfind : store.find? (fun r => r.id == quoteId) = some q)
    (howner : q.userId = userId) :
    declineQuote store quoteId userId reason now =
      (.ok { q with
             status := .declined,
             metadata := { q.metadata with
               declineReason := reason, declinedAt := some now } },
       store.map (fun r =>
         if r.id == quoteId then
           { q with
             status := .declined,
             metadata := { q.metadata with
               declineReason := reason, declinedAt := some now } }
         else r)) := by
  unfold declineQuote
  rw [hfind]
  simp [howner]

/-- Witness for C10: re-declining an already-declined quote succeeds and
overwrites the decline metadata, keeping the other keys. -/
theorem spec_c10_witness :
    declineQuote [declinedQuote] ("q3") ("u1") (some ("changed scope")) ("2026-02-01") =
      (.ok { declinedQuote with
             status := .declined,
             metadata := { declinedQuote.metadata with
               declineReason := some ("changed scope"),
               declinedAt := some ("2026-02-01") } },
       [{ declinedQuote with
          status := .declined,
          metadata := { declinedQuote.metadata with
            declineReason := some ("changed scope"),
            declinedAt := some ("2026-02-01") } }]) := by
  rw [spec_c10 [declinedQuote] ("q3") ("u1") (some ("changed scope")) ("2026-02-01")
    declinedQuote rfl rfl]
  rfl

end DC3
